import Mathlib

/-!
Shallow embedding of the continuous voice-memo monitor
(`src/continuous_monitor.py`): the processed-file ledger
(`ProcessedFileTracker`), the readiness filter, file signatures,
`process_file` and `run_single_scan` of `ContinuousVoiceMemoMonitor`.

The filesystem is modelled as a function from paths to optional stat
results (`none` models a raised `OSError`/`IOError`); the processing
callback as a function from the path to `Except String CbResult`
(`Except.error` models a raised exception, carrying `str(e)`); wall-clock
times as integers (seconds), and the ISO formatting of an mtime
(`datetime.fromtimestamp(mtime).isoformat()`) as an abstract injective
function `Int → String` supplied as a parameter.
-/

namespace Monitor

/-- Configuration of the monitor (`MonitorConfig` dataclass). Only the
fields the modelled code reads are kept. -/
structure MonitorConfig where
  polling_interval : Nat := 60
  min_file_age : Nat := 30
  max_file_age_days : Nat := 7
deriving Repr, DecidableEq

/-- The result of a successful `os.stat` call: the fields the monitor
reads (`st_size`, `st_mtime`, the latter in whole seconds). -/
structure FileStat where
  st_size : Nat
  st_mtime : Int
deriving Repr, DecidableEq

/-- The filesystem at one instant: `none` means `os.stat` raises. -/
abbrev FS : Type := String → Option FileStat

/-- One row of the `processed_files` table. The `id` autoincrement column
is omitted: nothing in the monitor reads it. -/
structure LedgerRow where
  file_path : String
  file_size : Nat
  modification_time : String
  processed_time : String
  success : Bool
  error_message : Option String
deriving Repr, DecidableEq

/-- The `processed_files` table as a list of rows. -/
abbrev Ledger : Type := List LedgerRow

/-- `ProcessedFileTracker.is_processed`: `SELECT COUNT(*) ... WHERE
file_path = ? AND file_size = ? AND modification_time = ?` followed by
`count > 0`. -/
def is_processed (db : Ledger) (file_path : String) (file_size : Nat)
    (modification_time : String) : Bool :=
  db.any fun r =>
    r.file_path == file_path && r.file_size == file_size &&
      r.modification_time == modification_time

/-- `ProcessedFileTracker.mark_processed`: `INSERT OR REPLACE` keyed on
the `UNIQUE` column `file_path` — the conflicting row (if any) is deleted
and the new row inserted. `processed_time` (`datetime.now().isoformat()`)
is passed in explicitly. -/
def mark_processed (db : Ledger) (file_path : String) (file_size : Nat)
    (modification_time : String) (processed_time : String)
    (success : Bool) (error_message : Option String) : Ledger :=
  db.filter (fun r => !(r.file_path == file_path)) ++
    [⟨file_path, file_size, modification_time, processed_time, success,
      error_message⟩]

/-- `ContinuousVoiceMemoMonitor._is_file_ready`: stat the file (failure
→ `False`), compute `file_age = now - st_mtime`, reject if
`file_age < min_file_age`, reject if `file_age > max_file_age_days * 24 *
3600`, accept otherwise. -/
def is_file_ready (cfg : MonitorConfig) (fs : FS) (now : Int)
    (file_path : String) : Bool :=
  match fs file_path with
  | none => false
  | some st =>
    let file_age : Int := now - st.st_mtime
    if file_age < (cfg.min_file_age : Int) then false
    else
      let max_age : Int := (cfg.max_file_age_days : Int) * 24 * 3600
      if file_age > max_age then false
      else true

/-- `ContinuousVoiceMemoMonitor._get_file_signature`: stat the file and
return `(path, st_size, isoformat(st_mtime))`; `none` on stat failure. -/
def get_file_signature (fs : FS) (iso : Int → String)
    (file_path : String) : Option (String × Nat × String) :=
  match fs file_path with
  | none => none
  | some st => some (file_path, st.st_size, iso st.st_mtime)

/-- One element of the list returned by
`AudioFileProcessor.discover_audio_files`; the monitor only reads the
`'path'` key. -/
structure FileInfo where
  path : String
deriving Repr, DecidableEq

/-- `ContinuousVoiceMemoMonitor.discover_new_files`: keep the candidates
that are ready, have an obtainable signature, and whose signature is not
already in the ledger. -/
def discover_new_files (cfg : MonitorConfig) (allFiles : List FileInfo)
    (fs : FS) (iso : Int → String) (now : Int) (db : Ledger) :
    List FileInfo :=
  allFiles.filter fun fi =>
    is_file_ready cfg fs now fi.path &&
      match get_file_signature fs iso fi.path with
      | none => false
      | some (fp, sz, mt) => !(is_processed db fp sz mt)

/-- The dictionary a processing callback returns. `success` and `error`
are `Option`s because the Python code reads them with `dict.get`:
`none` models an absent key. -/
structure CbResult where
  success : Option Bool := none
  error : Option String := none
deriving Repr, DecidableEq

/-- A processing callback: `Except.error e` models the callback raising
an exception whose `str` is `e`. -/
abbrev Callback : Type := String → Except String CbResult

/-- `ContinuousVoiceMemoMonitor.process_file`: recompute the signature
(failure → failure result, no ledger write); invoke the callback (or the
default success result when no callback is configured); record
`result.get('success', False)` and, on failure,
`result.get('error')` in the ledger; a raised exception is caught,
recorded in the ledger as a failure with `str(e)`, and returned as
`{'success': False, 'error': str(e)}`. Returns the result dictionary and
the new ledger. -/
def process_file (cb : Option Callback) (fs : FS) (iso : Int → String)
    (now_iso : String) (db : Ledger) (fi : FileInfo) :
    CbResult × Ledger :=
  match get_file_signature fs iso fi.path with
  | none =>
    ({ success := some false, error := some "Could not get file signature" },
     db)
  | some (file_path, file_size, modification_time) =>
    let run : Except String CbResult :=
      match cb with
      | some f => f file_path
      | none => Except.ok { success := some true }
    match run with
    | Except.error e =>
      ({ success := some false, error := some e },
       mark_processed db file_path file_size modification_time now_iso
         false (some e))
    | Except.ok result =>
      let success := result.success.getD false
      let error_message := if success then none else result.error
      (result,
       mark_processed db file_path file_size modification_time now_iso
         success error_message)

/-- The dictionary returned by `run_single_scan`. Every field apart from
`success` and `scan_time` is optional because the three return sites of
the Python function build dictionaries with different key sets. -/
structure ScanResult where
  success : Bool
  files_found : Option Nat := none
  files_processed : Option Nat := none
  files_failed : Option Nat := none
  error : Option String := none
  scan_time : Nat
deriving Repr, DecidableEq

/-- The body of the per-file loop of `run_single_scan`: process one file,
bump `processed_count` when `result.get('success')` is truthy, else bump
`failed_count`. -/
def scan_step (cb : Option Callback) (fs : FS) (iso : Int → String)
    (now_iso : String) (acc : Nat × Nat × Ledger) (fi : FileInfo) :
    Nat × Nat × Ledger :=
  let r := process_file cb fs iso now_iso acc.2.2 fi
  if r.1.success.getD false then (acc.1 + 1, acc.2.1, r.2)
  else (acc.1, acc.2.1 + 1, r.2)

/-- `ContinuousVoiceMemoMonitor.run_single_scan`. `audio_files` is the
outcome of `AudioFileProcessor.discover_audio_files` (`Except.error e`
models it raising an exception with `str(e) = e`); `elapsed` is the
wall-clock duration `time.time() - scan_start` of the pass. Returns the
result dictionary and the new ledger. -/
def run_single_scan (cfg : MonitorConfig) (cb : Option Callback)
    (audio_files : Except String (List FileInfo)) (fs : FS)
    (iso : Int → String) (now : Int) (now_iso : String) (elapsed : Nat)
    (db : Ledger) : ScanResult × Ledger :=
  match audio_files with
  | Except.error e =>
    ({ success := false, error := some ("Scan failed: " ++ e),
       scan_time := elapsed }, db)
  | Except.ok allFiles =>
    let new_files := discover_new_files cfg allFiles fs iso now db
    if new_files.isEmpty then
      ({ success := true, files_found := some 0,
         files_processed := some 0, scan_time := elapsed }, db)
    else
      let res := new_files.foldl (scan_step cb fs iso now_iso) (0, 0, db)
      ({ success := true, files_found := some new_files.length,
         files_processed := some res.1, files_failed := some res.2.1,
         scan_time := elapsed }, res.2.2)

/-! ## Helper definitions for the ledger invariant -/

/-- At most one ledger row per `file_path`. -/
def atMostOnePerPath (db : Ledger) : Prop :=
  db.Pairwise fun a b => a.file_path ≠ b.file_path

/-- The arguments of one `mark_processed` call. -/
structure MarkCall where
  file_path : String
  file_size : Nat
  modification_time : String
  processed_time : String
  success : Bool
  error_message : Option String
deriving Repr, DecidableEq

/-- The row a `mark_processed` call stores. -/
def rowOf (c : MarkCall) : LedgerRow :=
  ⟨c.file_path, c.file_size, c.modification_time, c.processed_time,
    c.success, c.error_message⟩

/-- Apply a sequence of `mark_processed` calls to a ledger. -/
def applyMarks (db : Ledger) (calls : List MarkCall) : Ledger :=
  calls.foldl
    (fun d c =>
      mark_processed d c.file_path c.file_size c.modification_time
        c.processed_time c.success c.error_message)
    db

/-! ## Helper lemmas -/

theorem mark_processed_filter_eq (db : Ledger) (fp : String) (sz : Nat)
    (mt pt : String) (s : Bool) (em : Option String) :
    (mark_processed db fp sz mt pt s em).filter
      (fun r => r.file_path == fp) = [⟨fp, sz, mt, pt, s, em⟩] := by
  have h1 : (db.filter fun r => !(r.file_path == fp)).filter
      (fun r => r.file_path == fp) = [] := by
    rw [List.filter_eq_nil_iff]
    intro a ha
    rcases List.mem_filter.mp ha with ⟨_, hne⟩
    simp_all
  unfold mark_processed
  rw [List.filter_append, h1]
  simp

theorem mark_processed_pairwise (db : Ledger) (fp : String) (sz : Nat)
    (mt pt : String) (s : Bool) (em : Option String)
    (h : atMostOnePerPath db) :
    atMostOnePerPath (mark_processed db fp sz mt pt s em) := by
  unfold atMostOnePerPath mark_processed
  rw [List.pairwise_append]
  refine ⟨h.filter _, List.pairwise_singleton _ _, ?_⟩
  intro a ha b hb
  rcases List.mem_filter.mp ha with ⟨_, hne⟩
  rcases List.mem_singleton.mp hb with rfl
  simpa using hne

theorem applyMarks_pairwise (calls : List MarkCall) (db : Ledger)
    (h : atMostOnePerPath db) : atMostOnePerPath (applyMarks db calls) := by
  induction calls generalizing db with
  | nil => exact h
  | cons c cs ih =>
    exact ih _ (mark_processed_pairwise db c.file_path c.file_size
      c.modification_time c.processed_time c.success c.error_message h)

theorem process_file_error_eq (f : Callback) (fs : FS)
    (iso : Int → String) (now_iso : String) (db : Ledger)
    (fi : FileInfo) (st : FileStat) (e : String)
    (hfs : fs fi.path = some st) (hcb : f fi.path = Except.error e) :
    process_file (some f) fs iso now_iso db fi =
      ({ success := some false, error := some e },
       mark_processed db fi.path st.st_size (iso st.st_mtime) now_iso
         false (some e)) := by
  unfold process_file get_file_signature
  rw [hfs]
  simp only [hcb]

theorem process_file_ok_eq (f : Callback) (fs : FS)
    (iso : Int → String) (now_iso : String) (db : Ledger)
    (fi : FileInfo) (st : FileStat) (r : CbResult)
    (hfs : fs fi.path = some st) (hcb : f fi.path = Except.ok r) :
    process_file (some f) fs iso now_iso db fi =
      (r, mark_processed db fi.path st.st_size (iso st.st_mtime) now_iso
        (r.success.getD false)
        (if r.success.getD false then none else r.error)) := by
  unfold process_file get_file_signature
  rw [hfs]
  simp only [hcb]

theorem is_processed_mark_same (db : Ledger) (fp : String) (sz : Nat)
    (mt pt : String) (s : Bool) (em : Option String) :
    is_processed (mark_processed db fp sz mt pt s em) fp sz mt = true := by
  unfold is_processed mark_processed
  simp

theorem scan_foldl_counts (cb : Option Callback) (fs : FS)
    (iso : Int → String) (now_iso : String) (l : List FileInfo) :
    ∀ (pc fc : Nat) (db : Ledger),
      (l.foldl (scan_step cb fs iso now_iso) (pc, fc, db)).1 +
          (l.foldl (scan_step cb fs iso now_iso) (pc, fc, db)).2.1 =
        pc + fc + l.length ∧
      fc ≤ (l.foldl (scan_step cb fs iso now_iso) (pc, fc, db)).2.1 := by
  induction l with
  | nil => intro pc fc db; simp
  | cons a tl ih =>
    intro pc fc db
    simp only [List.foldl_cons, List.length_cons]
    by_cases hs :
      (process_file cb fs iso now_iso db a).1.success.getD false
    · have hstep : scan_step cb fs iso now_iso (pc, fc, db) a =
          (pc + 1, fc, (process_file cb fs iso now_iso db a).2) := by
        simp [scan_step, hs]
      rw [hstep]
      have h := ih (pc + 1) fc (process_file cb fs iso now_iso db a).2
      omega
    · have hstep : scan_step cb fs iso now_iso (pc, fc, db) a =
          (pc, fc + 1, (process_file cb fs iso now_iso db a).2) := by
        simp [scan_step, hs]
      rw [hstep]
      have h := ih pc (fc + 1) (process_file cb fs iso now_iso db a).2
      omega

theorem scan_foldl_failed_of_mem (cb : Option Callback) (fs : FS)
    (iso : Int → String) (now_iso : String) (A : FileInfo)
    (hfail : ∀ db : Ledger,
      (process_file cb fs iso now_iso db A).1.success.getD false =
        false)
    (l : List FileInfo) :
    ∀ (pc fc : Nat) (db : Ledger), A ∈ l →
      fc + 1 ≤ (l.foldl (scan_step cb fs iso now_iso) (pc, fc, db)).2.1 := by
  induction l with
  | nil => intro pc fc db h; cases h
  | cons a tl ih =>
    intro pc fc db hmem
    simp only [List.foldl_cons]
    rcases List.mem_cons.mp hmem with rfl | hmem'
    · have hstep : scan_step cb fs iso now_iso (pc, fc, db) A =
          (pc, fc + 1, (process_file cb fs iso now_iso db A).2) := by
        simp [scan_step, hfail db]
      rw [hstep]
      exact (scan_foldl_counts cb fs iso now_iso tl pc (fc + 1) _).2
    · by_cases hs :
        (process_file cb fs iso now_iso db a).1.success.getD false
      · have hstep : scan_step cb fs iso now_iso (pc, fc, db) a =
            (pc + 1, fc, (process_file cb fs iso now_iso db a).2) := by
          simp [scan_step, hs]
        rw [hstep]
        exact ih (pc + 1) fc _ hmem'
      · have hstep : scan_step cb fs iso now_iso (pc, fc, db) a =
            (pc, fc + 1, (process_file cb fs iso now_iso db a).2) := by
          simp [scan_step, hs]
        rw [hstep]
        have h := ih pc (fc + 1)
          (process_file cb fs iso now_iso db a).2 hmem'
        omega

/-! ## Claim theorems -/

/-- C2: `is_processed` returns true iff a ledger row with exactly
matching path, size and modification-time string is present; in
particular a row for the same path with a different size or a different
modification-time string makes `is_processed` return false for the new
signature. -/
theorem is_processed_exact_match (db : Ledger) (fp : String) (sz : Nat)
    (mt : String) :
    (is_processed db fp sz mt = true ↔
      ∃ r ∈ db, r.file_path = fp ∧ r.file_size = sz ∧
        r.modification_time = mt) ∧
    (∀ r : LedgerRow, r.file_path = fp →
      r.file_size ≠ sz ∨ r.modification_time ≠ mt →
      is_processed [r] fp sz mt = false) := by
  constructor
  · simp [is_processed, List.any_eq_true, and_assoc]
  · intro r hp hne
    simp only [is_processed, List.any_cons, List.any_nil, Bool.or_false]
    rcases hne with hne | hne <;> simp [hp, hne]

/-- C2 witness. -/
theorem is_processed_exact_match_witness :
    ((is_processed [⟨"a", 3, "t1", "p", true, none⟩] "a" 3 "t1" = true ↔
      ∃ r ∈ [(⟨"a", 3, "t1", "p", true, none⟩ : LedgerRow)],
        r.file_path = "a" ∧ r.file_size = 3 ∧
          r.modification_time = "t1") ∧
    (∀ r : LedgerRow, r.file_path = "a" →
      r.file_size ≠ 3 ∨ r.modification_time ≠ "t1" →
      is_processed [r] "a" 3 "t1" = false)) :=
  is_processed_exact_match [⟨"a", 3, "t1", "p", true, none⟩] "a" 3 "t1"

/-- C3: every sequence of `mark_processed` calls starting from the empty
ledger keeps at most one row per path, and after a final call `c` the
rows stored under `c`'s path are exactly the single row holding `c`'s
field values — the prior record for that path is replaced wholesale,
whatever its signature was. -/
theorem mark_processed_single_live_record (calls : List MarkCall)
    (c : MarkCall) :
    atMostOnePerPath (applyMarks [] calls) ∧
    (applyMarks [] (calls ++ [c])).filter
      (fun r => r.file_path == c.file_path) = [rowOf c] := by
  constructor
  · exact applyMarks_pairwise calls [] (List.Pairwise.nil)
  · rw [applyMarks, List.foldl_append]
    exact mark_processed_filter_eq _ c.file_path c.file_size
      c.modification_time c.processed_time c.success c.error_message

/-- C3 witness: two calls for the same path with different signatures,
followed by a call for another path. -/
theorem mark_processed_single_live_record_witness :
    atMostOnePerPath (applyMarks []
      [⟨"a", 1, "t1", "p1", true, none⟩,
       ⟨"a", 2, "t2", "p2", false, some "err"⟩]) ∧
    (applyMarks []
        ([⟨"a", 1, "t1", "p1", true, none⟩,
          ⟨"a", 2, "t2", "p2", false, some "err"⟩] ++
          [⟨"a", 3, "t3", "p3", true, none⟩])).filter
      (fun r => r.file_path ==
        (⟨"a", 3, "t3", "p3", true, none⟩ : MarkCall).file_path) =
      [rowOf ⟨"a", 3, "t3", "p3", true, none⟩] :=
  mark_processed_single_live_record
    [⟨"a", 1, "t1", "p1", true, none⟩,
     ⟨"a", 2, "t2", "p2", false, some "err"⟩]
    ⟨"a", 3, "t3", "p3", true, none⟩

theorem is_file_ready_true_iff (cfg : MonitorConfig) (fs : FS)
    (now : Int) (path : String) (st : FileStat)
    (hfs : fs path = some st) :
    is_file_ready cfg fs now path = true ↔
      ((cfg.min_file_age : Int) ≤ now - st.st_mtime ∧
        now - st.st_mtime ≤ (cfg.max_file_age_days : Int) * 24 * 3600) := by
  simp only [is_file_ready, hfs]
  split_ifs with h1 h2 <;> simp <;> omega

/-- C4 counterexample: with the default configuration
(`min_file_age = 30`, `max_file_age_days = 7`, so the upper bound is
604800 seconds) a file whose age is exactly `max_file_age` is accepted by
the readiness filter, contradicting the claim that it is excluded: the
code rejects only ages strictly greater than the bound. -/
theorem is_file_ready_at_max_age_counterexample :
    ¬ (is_file_ready {} (fun _ => some ⟨100, 0⟩) 604800 "A.m4a" = false) := by
  decide

/-- C4 (amended): a file with age exactly one second below
`min_file_age` is excluded, one at exactly `min_file_age` is included,
one at exactly `max_file_age` is included (the upper bound rejects only
strictly greater ages), one one second below `max_file_age` is included,
and one one second above `max_file_age` is excluded. -/
theorem is_file_ready_age_window (cfg : MonitorConfig) (fs : FS)
    (path : String) (st : FileStat)
    (hfs : fs path = some st)
    (hcfg : (cfg.min_file_age : Int) + 1 ≤
      (cfg.max_file_age_days : Int) * 24 * 3600) :
    is_file_ready cfg fs (st.st_mtime + (cfg.min_file_age : Int) - 1)
      path = false ∧
    is_file_ready cfg fs (st.st_mtime + (cfg.min_file_age : Int))
      path = true ∧
    is_file_ready cfg fs
      (st.st_mtime + (cfg.max_file_age_days : Int) * 24 * 3600)
      path = true ∧
    is_file_ready cfg fs
      (st.st_mtime + (cfg.max_file_age_days : Int) * 24 * 3600 - 1)
      path = true ∧
    is_file_ready cfg fs
      (st.st_mtime + (cfg.max_file_age_days : Int) * 24 * 3600 + 1)
      path = false := by
  have key : ∀ now : Int, is_file_ready cfg fs now path = true ↔
      ((cfg.min_file_age : Int) ≤ now - st.st_mtime ∧
        now - st.st_mtime ≤ (cfg.max_file_age_days : Int) * 24 * 3600) :=
    fun now => is_file_ready_true_iff cfg fs now path st hfs
  refine ⟨?_, ?_, ?_, ?_, ?_⟩
  · rw [Bool.eq_false_iff, Ne, key]; omega
  · rw [key]; omega
  · rw [key]; omega
  · rw [key]; omega
  · rw [Bool.eq_false_iff, Ne, key]; omega

/-- C4 witness: the amended boundary behavior at the default
configuration, with the file's mtime at the epoch. -/
theorem is_file_ready_age_window_witness :
    is_file_ready {} (fun _ => some ⟨7, 0⟩) (0 + (30 : Int) - 1)
      "a.m4a" = false ∧
    is_file_ready {} (fun _ => some ⟨7, 0⟩) (0 + (30 : Int))
      "a.m4a" = true ∧
    is_file_ready {} (fun _ => some ⟨7, 0⟩) (0 + (7 : Int) * 24 * 3600)
      "a.m4a" = true ∧
    is_file_ready {} (fun _ => some ⟨7, 0⟩) (0 + (7 : Int) * 24 * 3600 - 1)
      "a.m4a" = true ∧
    is_file_ready {} (fun _ => some ⟨7, 0⟩) (0 + (7 : Int) * 24 * 3600 + 1)
      "a.m4a" = false :=
  is_file_ready_age_window {} (fun _ => some ⟨7, 0⟩) "a.m4a" ⟨7, 0⟩ rfl
    (by decide)

/-- C5: when the file's signature cannot be obtained at processing time
(the stat fails), `process_file` returns the failure result immediately
and the ledger is unchanged — no row is created or replaced. -/
theorem process_file_no_signature_no_write (cb : Option Callback)
    (fs : FS) (iso : Int → String) (now_iso : String) (db : Ledger)
    (fi : FileInfo) (h : fs fi.path = none) :
    process_file cb fs iso now_iso db fi =
      ({ success := some false,
         error := some "Could not get file signature" }, db) := by
  unfold process_file get_file_signature
  rw [h]

/-- C5 witness: a filesystem where every stat fails. -/
theorem process_file_no_signature_no_write_witness :
    process_file none (fun _ => none) (fun i => toString i) "t"
      [⟨"b", 1, "m", "p", true, none⟩] ⟨"a"⟩ =
      ({ success := some false,
         error := some "Could not get file signature" },
       [⟨"b", 1, "m", "p", true, none⟩]) :=
  process_file_no_signature_no_write none (fun _ => none)
    (fun i => toString i) "t" [⟨"b", 1, "m", "p", true, none⟩] ⟨"a"⟩ rfl

/-- C6: when the signature is obtainable and the callback raises, the
exception is caught: `process_file` returns a failure result whose error
field is the fault's description, and the ledger is written — the new
ledger is a `mark_processed` with `success = false` and that error
message, and it contains the corresponding row for the file's
signature. -/
theorem process_file_callback_fault (f : Callback) (fs : FS)
    (iso : Int → String) (now_iso : String) (db : Ledger)
    (fi : FileInfo) (st : FileStat) (e : String)
    (hfs : fs fi.path = some st) (hcb : f fi.path = Except.error e) :
    process_file (some f) fs iso now_iso db fi =
      ({ success := some false, error := some e },
       mark_processed db fi.path st.st_size (iso st.st_mtime) now_iso
         false (some e)) ∧
    (⟨fi.path, st.st_size, iso st.st_mtime, now_iso, false, some e⟩ :
        LedgerRow) ∈ (process_file (some f) fs iso now_iso db fi).2 := by
  have h1 : process_file (some f) fs iso now_iso db fi =
      ({ success := some false, error := some e },
       mark_processed db fi.path st.st_size (iso st.st_mtime) now_iso
         false (some e)) := by
    unfold process_file get_file_signature
    rw [hfs]
    simp only [hcb]
  refine ⟨h1, ?_⟩
  rw [h1]
  unfold mark_processed
  simp

/-- C6 witness: a callback that always raises. -/
theorem process_file_callback_fault_witness :
    (process_file (some fun _ => Except.error "boom")
        (fun _ => some ⟨5, 2⟩) (fun i => toString i) "t" [] ⟨"a"⟩ =
      ({ success := some false, error := some "boom" },
       mark_processed [] "a" 5 (toString (2 : Int)) "t" false
         (some "boom")) ∧
    (⟨"a", 5, toString (2 : Int), "t", false, some "boom"⟩ :
        LedgerRow) ∈ (process_file (some fun _ => Except.error "boom")
        (fun _ => some ⟨5, 2⟩) (fun i => toString i) "t" [] ⟨"a"⟩).2) :=
  process_file_callback_fault (fun _ => Except.error "boom")
    (fun _ => some ⟨5, 2⟩) (fun i => toString i) "t" [] ⟨"a"⟩ ⟨5, 2⟩
    "boom" rfl rfl

/-- C9: an exception escaping discovery itself is caught by
`run_single_scan`, which returns a result with `success = false`, the
error description (prefixed `Scan failed: `) and the elapsed time, and
leaves the ledger unchanged; nothing propagates to the caller. -/
theorem run_single_scan_discovery_fault (cfg : MonitorConfig)
    (cb : Option Callback) (e : String) (fs : FS) (iso : Int → String)
    (now : Int) (now_iso : String) (elapsed : Nat) (db : Ledger) :
    run_single_scan cfg cb (Except.error e) fs iso now now_iso elapsed
        db =
      ({ success := false, error := some ("Scan failed: " ++ e),
         scan_time := elapsed }, db) := rfl

/-- C9 witness: a concrete discovery failure over a one-row ledger. -/
theorem run_single_scan_discovery_fault_witness :
    run_single_scan {} none (Except.error "disk error")
        (fun _ => some ⟨1, 0⟩) (fun i => toString i) 0 "t" 4
        [⟨"b", 1, "m", "p", true, none⟩] =
      ({ success := false, error := some ("Scan failed: " ++
          "disk error"), scan_time := 4 },
       [⟨"b", 1, "m", "p", true, none⟩]) :=
  run_single_scan_discovery_fault {} none "disk error"
    (fun _ => some ⟨1, 0⟩) (fun i => toString i) 0 "t" 4
    [⟨"b", 1, "m", "p", true, none⟩]

/-- C10: when the callback returns normally but its result dictionary
lacks the `success` key, `process_file` treats the outcome as a failure:
the ledger row is written with `success = false` and the error message
taken from the result's `error` key (absent when that key is absent
too), and the callback's result is returned unchanged rather than
raising or being treated as success. -/
theorem process_file_missing_success_key (f : Callback) (fs : FS)
    (iso : Int → String) (now_iso : String) (db : Ledger)
    (fi : FileInfo) (st : FileStat) (r : CbResult)
    (hfs : fs fi.path = some st) (hcb : f fi.path = Except.ok r)
    (hr : r.success = none) :
    process_file (some f) fs iso now_iso db fi =
      (r, mark_processed db fi.path st.st_size (iso st.st_mtime) now_iso
        false r.error) := by
  unfold process_file get_file_signature
  rw [hfs]
  simp only [hcb, hr, Option.getD_none, Bool.false_eq_true, if_false]

/-- C10 witness: a callback returning a dictionary with neither a
`success` nor an `error` key. -/
theorem process_file_missing_success_key_witness :
    process_file (some fun _ => Except.ok {}) (fun _ => some ⟨4, 3⟩)
        (fun i => toString i) "t" [] ⟨"a"⟩ =
      ({}, mark_processed [] "a" 4 (toString (3 : Int)) "t" false
        none) :=
  process_file_missing_success_key (fun _ => Except.ok {})
    (fun _ => some ⟨4, 3⟩) (fun i => toString i) "t" [] ⟨"a"⟩ ⟨4, 3⟩ {}
    rfl rfl rfl

/-- C1: after `process_file` for a file whose callback returned a
successful result (which wrote the ledger row), the ledger reports
`is_processed` true for the file's signature, and — the signature being
unchanged, i.e. the same filesystem — a subsequent
`discover_new_files` yields zero candidates for that file. -/
theorem process_success_idempotent (cfg : MonitorConfig) (f : Callback)
    (fs : FS) (iso : Int → String) (now : Int) (now_iso : String)
    (db : Ledger) (allFiles : List FileInfo) (A : FileInfo)
    (st : FileStat) (r : CbResult)
    (hfs : fs A.path = some st) (hcb : f A.path = Except.ok r)
    (hr : r.success.getD false = true) :
    is_processed ((process_file (some f) fs iso now_iso db A).2) A.path
        st.st_size (iso st.st_mtime) = true ∧
    ∀ fi ∈ discover_new_files cfg allFiles fs iso now
        ((process_file (some f) fs iso now_iso db A).2),
      fi.path ≠ A.path := by
  have hdb : (process_file (some f) fs iso now_iso db A).2 =
      mark_processed db A.path st.st_size (iso st.st_mtime) now_iso
        true none := by
    rw [process_file_ok_eq f fs iso now_iso db A st r hfs hcb, hr]
    simp
  have hproc : is_processed
      ((process_file (some f) fs iso now_iso db A).2) A.path
      st.st_size (iso st.st_mtime) = true := by
    rw [hdb]
    exact is_processed_mark_same db A.path st.st_size (iso st.st_mtime)
      now_iso true none
  refine ⟨hproc, ?_⟩
  intro fi hmem heq
  rcases List.mem_filter.mp hmem with ⟨_, hpred⟩
  rw [heq, Bool.and_eq_true] at hpred
  rcases hpred with ⟨_, h2⟩
  rw [show get_file_signature fs iso A.path =
      some (A.path, st.st_size, iso st.st_mtime) by
    unfold get_file_signature; rw [hfs]] at h2
  rw [show ((match some (A.path, st.st_size, iso st.st_mtime) with
      | none => false
      | some (fp, sz, mt) =>
        !(is_processed ((process_file (some f) fs iso now_iso db A).2)
          fp sz mt)) : Bool) =
      !(is_processed ((process_file (some f) fs iso now_iso db A).2)
        A.path st.st_size (iso st.st_mtime)) from rfl, hproc] at h2
  simp at h2

/-- C1 witness: a one-file filesystem whose callback succeeds. -/
theorem process_success_idempotent_witness :
    ((fun _ => some ⟨1, 0⟩) : FS) "A" = some ⟨1, 0⟩ ∧
    ((fun _ => Except.ok { success := some true }) : Callback) "A" =
      Except.ok { success := some true } ∧
    (({ success := some true } : CbResult).success.getD false = true) ∧
    (is_processed
        ((process_file (some fun _ => Except.ok { success := some true })
          (fun _ => some ⟨1, 0⟩) (fun i => toString i) "t" [] ⟨"A"⟩).2)
        "A" 1 (toString (0 : Int)) = true ∧
      ∀ fi ∈ discover_new_files {} [⟨"A"⟩] (fun _ => some ⟨1, 0⟩)
          (fun i => toString i) 100
          ((process_file
            (some fun _ => Except.ok { success := some true })
            (fun _ => some ⟨1, 0⟩) (fun i => toString i) "t" []
            ⟨"A"⟩).2),
        fi.path ≠ "A") :=
  ⟨rfl, rfl, rfl,
    process_success_idempotent {}
      (fun _ => Except.ok { success := some true })
      (fun _ => some ⟨1, 0⟩) (fun i => toString i) 100 "t" [] [⟨"A"⟩]
      ⟨"A"⟩ ⟨1, 0⟩ { success := some true } rfl rfl rfl⟩

/-- C7: when one discovered file's callback raises, the scan still
completes: every discovered file contributes exactly one outcome
(`files_processed + files_failed = files_found`, so every other file is
still attempted), the aggregate reports `files_failed ≥ 1`, and
`success = true` for the overall scan. -/
theorem run_single_scan_failure_isolation (cfg : MonitorConfig)
    (f : Callback) (allFiles : List FileInfo) (fs : FS)
    (iso : Int → String) (now : Int) (now_iso : String) (elapsed : Nat)
    (db : Ledger) (A : FileInfo) (st : FileStat) (e : String)
    (hA : A ∈ discover_new_files cfg allFiles fs iso now db)
    (hfs : fs A.path = some st)
    (hthrow : f A.path = Except.error e) :
    ∃ pc fc,
      (run_single_scan cfg (some f) (Except.ok allFiles) fs iso now
          now_iso elapsed db).1 =
        { success := true,
          files_found :=
            some (discover_new_files cfg allFiles fs iso now db).length,
          files_processed := some pc, files_failed := some fc,
          scan_time := elapsed } ∧
      pc + fc =
        (discover_new_files cfg allFiles fs iso now db).length ∧
      1 ≤ fc := by
  have hmemne : ∀ (l : List FileInfo), A ∈ l → l.isEmpty = false := by
    intro l hl
    cases l
    · cases hl
    · rfl
  have hne : (discover_new_files cfg allFiles fs iso now db).isEmpty =
      false := hmemne _ hA
  have hrun : run_single_scan cfg (some f) (Except.ok allFiles) fs iso
      now now_iso elapsed db =
      ({ success := true,
         files_found :=
           some (discover_new_files cfg allFiles fs iso now db).length,
         files_processed :=
           some ((discover_new_files cfg allFiles fs iso now db).foldl
             (scan_step (some f) fs iso now_iso) (0, 0, db)).1,
         files_failed :=
           some ((discover_new_files cfg allFiles fs iso now db).foldl
             (scan_step (some f) fs iso now_iso) (0, 0, db)).2.1,
         scan_time := elapsed },
       ((discover_new_files cfg allFiles fs iso now db).foldl
         (scan_step (some f) fs iso now_iso) (0, 0, db)).2.2) := by
    simp only [run_single_scan, hne, Bool.false_eq_true, if_false]
  refine ⟨_, _, by rw [hrun], ?_, ?_⟩
  · have h := scan_foldl_counts (some f) fs iso now_iso
      (discover_new_files cfg allFiles fs iso now db) 0 0 db
    omega
  · have hfail : ∀ d : Ledger,
        (process_file (some f) fs iso now_iso d A).1.success.getD
          false = false := by
      intro d
      rw [process_file_error_eq f fs iso now_iso d A st e hfs hthrow]
      rfl
    have h := scan_foldl_failed_of_mem (some f) fs iso now_iso A hfail
      (discover_new_files cfg allFiles fs iso now db) 0 0 db hA
    omega

/-- C7 witness: two discovered files, the first one's callback raises,
the second one's succeeds. -/
theorem run_single_scan_failure_isolation_witness :
    (⟨"A"⟩ : FileInfo) ∈ discover_new_files {} [⟨"A"⟩, ⟨"B"⟩]
        (fun _ => some ⟨1, 0⟩) (fun i => toString i) 100 [] ∧
    ((fun _ => some ⟨1, 0⟩) : FS) "A" = some ⟨1, 0⟩ ∧
    ((fun p => if p == "A" then Except.error "boom"
        else Except.ok { success := some true }) : Callback) "A" =
      Except.error "boom" ∧
    ∃ pc fc,
      (run_single_scan {}
          (some fun p => if p == "A" then Except.error "boom"
            else Except.ok { success := some true })
          (Except.ok [⟨"A"⟩, ⟨"B"⟩]) (fun _ => some ⟨1, 0⟩)
          (fun i => toString i) 100 "t" 2 []).1 =
        { success := true,
          files_found := some (discover_new_files {} [⟨"A"⟩, ⟨"B"⟩]
            (fun _ => some ⟨1, 0⟩) (fun i => toString i) 100 []).length,
          files_processed := some pc, files_failed := some fc,
          scan_time := 2 } ∧
      pc + fc = (discover_new_files {} [⟨"A"⟩, ⟨"B"⟩]
        (fun _ => some ⟨1, 0⟩) (fun i => toString i) 100 []).length ∧
      1 ≤ fc :=
  ⟨by decide, rfl, rfl,
    run_single_scan_failure_isolation {}
      (fun p => if p == "A" then Except.error "boom"
        else Except.ok { success := some true })
      [⟨"A"⟩, ⟨"B"⟩] (fun _ => some ⟨1, 0⟩) (fun i => toString i) 100
      "t" 2 [] ⟨"A"⟩ ⟨1, 0⟩ "boom" (by decide) rfl rfl⟩

/-- C8 counterexample: on the empty-discovery path `run_single_scan`
returns a dictionary with no `files_failed` entry at all — it is not
`0`, contradicting the claimed zero-counts result shape. -/
theorem run_single_scan_empty_counterexample :
    ¬ ((run_single_scan {} none (Except.ok []) (fun _ => none)
        (fun i => toString i) 0 "t" 0 []).1.files_failed = some 0) := by
  decide

/-- C8 (amended): whenever `discover_new_files` returns no candidates,
`run_single_scan` returns immediately a success result with
`success = true`, `files_found = 0`, `files_processed = 0` and the
elapsed scan time — but no `files_failed` field — without invoking the
processing callback (the result is the same for every callback) and
without writing the ledger. -/
theorem run_single_scan_empty_fast_path (cfg : MonitorConfig)
    (cb : Option Callback) (allFiles : List FileInfo) (fs : FS)
    (iso : Int → String) (now : Int) (now_iso : String) (elapsed : Nat)
    (db : Ledger)
    (h : discover_new_files cfg allFiles fs iso now db = []) :
    run_single_scan cfg cb (Except.ok allFiles) fs iso now now_iso
        elapsed db =
      ({ success := true, files_found := some 0,
         files_processed := some 0, files_failed := none,
         error := none, scan_time := elapsed }, db) := by
  simp only [run_single_scan, h, List.isEmpty_nil, if_true]

/-- C8 witness: an empty candidate list over a ledger with one row. -/
theorem run_single_scan_empty_fast_path_witness :
    discover_new_files {} [] (fun _ => some ⟨1, 0⟩)
        (fun i => toString i) 0 [⟨"b", 1, "m", "p", true, none⟩] = [] ∧
    run_single_scan {} none (Except.ok []) (fun _ => some ⟨1, 0⟩)
        (fun i => toString i) 0 "t" 3
        [⟨"b", 1, "m", "p", true, none⟩] =
      ({ success := true, files_found := some 0,
         files_processed := some 0, files_failed := none,
         error := none, scan_time := 3 },
       [⟨"b", 1, "m", "p", true, none⟩]) :=
  ⟨rfl,
    run_single_scan_empty_fast_path {} none [] (fun _ => some ⟨1, 0⟩)
      (fun i => toString i) 0 "t" 3 [⟨"b", 1, "m", "p", true, none⟩]
      rfl⟩

end Monitor
